import Mathlib

/-!
Shallow embedding of `src/typejson_titlecraft/core.py`.

The module exposes a `Client` holding a model identifier and an API key,
validates both at construction, and generates titles through one of two
upstream call shapes (OpenAI "responses" API for the GPT-5 family, "chat
completions" for everything else).  The upstream service is modelled as an
oracle `APICall → UpstreamOutcome`; each generation run records the call it
issued and the client state it finishes with, so that request shapes and
frame conditions are provable.
-/

namespace TitleCraft

/-- Whitespace characters removed by Python `str.strip()` (ASCII range). -/
def isPySpace (c : Char) : Bool :=
  c = ' ' || c = '\t' || c = '\n' || c = '\r' || c = Char.ofNat 11 || c = Char.ofNat 12

/-- Drop characters satisfying `p` from both ends of a list. -/
def stripCharsWith (p : Char → Bool) (l : List Char) : List Char :=
  ((l.dropWhile p).reverse.dropWhile p).reverse

/-- Python `s.strip()`: remove surrounding whitespace. -/
def pyStrip (s : String) : String := ⟨stripCharsWith isPySpace s.data⟩

/-- Python `s.strip(c)` for a one-character argument: remove every leading
and trailing occurrence of `c`. -/
def pyStripChar (c : Char) (s : String) : String :=
  ⟨stripCharsWith (fun d => d = c) s.data⟩

/-- Python truthiness of a string: nonempty. -/
def pyTruthy (s : String) : Bool := !s.data.isEmpty

/-- Python truthiness of an optional string: present and nonempty. -/
def pyTruthyOpt : Option String → Bool
  | none => false
  | some s => pyTruthy s

/-- Python `a or b` on optional strings (`None` and `""` are falsy). -/
def pyOrOpt (a b : Option String) : Option String :=
  match a with
  | some s => if pyTruthy s then some s else b
  | none => b

/-- `SUPPORTED_MODELS` from core.py. -/
def SUPPORTED_MODELS : List String :=
  ["gpt-5", "gpt-5-mini", "gpt-5-nano", "gpt-4o", "gpt-4o-mini", "gpt-4", "gpt-3.5-turbo"]

/-- `GPT5_MODELS` from core.py: models routed to the Responses API. -/
def GPT5_MODELS : List String := ["gpt-5", "gpt-5-mini", "gpt-5-nano"]

/-- `DEFAULT_MODEL` from core.py. -/
def DEFAULT_MODEL : String := "gpt-4o"

/-- Supported models that are not in `GPT5_MODELS`: the class dispatched to
the Chat Completions API. -/
def CLASS_B_MODELS : List String := ["gpt-4o", "gpt-4o-mini", "gpt-4", "gpt-3.5-turbo"]

/-- The two public error kinds of core.py (both subclasses of
`TitleCraftError`). -/
inductive TError where
  | validationError (msg : String)
  | apiError (msg : String)
deriving DecidableEq, Repr

/-- One chat message (`role`/`content` dict in the Python call). -/
structure Msg where
  role : String
  content : String
deriving DecidableEq, Repr

/-- The request issued to the upstream service: either the single-prompt
`client.responses.create(...)` shape or the two-message
`client.chat.completions.create(...)` shape, with the exact parameters the
code passes. -/
inductive APICall where
  | responsesCreate (model : String) (input : String) (reasoningEffort : String)
      (textVerbosity : String) (timeout : ℚ)
  | chatCreate (model : String) (messages : List Msg) (maxCompletionTokens : Nat)
      (temperature : ℚ) (timeout : ℚ)
deriving DecidableEq, Repr

/-- An exception raised by the upstream client call: a message (`str(e)`)
and an optional `status_code` attribute. -/
structure UpstreamFailure where
  status_code : Option Int
  msg : String
deriving DecidableEq, Repr

/-- What the upstream service does with a call: return a text payload
(`response.output_text` resp. `response.choices[0].message.content`, which
may be absent) or raise a failure. -/
inductive UpstreamOutcome where
  | ok (payload : Option String)
  | err (f : UpstreamFailure)
deriving DecidableEq, Repr

/-- An exception propagating inside `generate_title`'s `try` block: either
the upstream client's failure or a `TitleCraftError` raised by the helper
methods themselves. -/
inductive Exn where
  | upstream (f : UpstreamFailure)
  | raised (e : TError)
deriving DecidableEq, Repr

/-- `hasattr(e, 'status_code')` and the attribute's value: upstream
failures carry it, `TitleCraftError`s do not. -/
def Exn.statusCode : Exn → Option Int
  | .upstream f => f.status_code
  | .raised _ => none

/-- `str(e)`: the exception's message. -/
def Exn.str : Exn → String
  | .upstream f => f.msg
  | .raised (.validationError m) => m
  | .raised (.apiError m) => m

/-- The client state: selected model and the API key held by the wrapped
OpenAI client. -/
structure Client where
  model : String
  api_key : String
deriving DecidableEq, Repr

/-- The construction error message for an unsupported model. -/
def unsupported_model_msg (model : String) : String :=
  "Unsupported model '" ++ model ++ "'. Supported models: "
    ++ String.intercalate ", " SUPPORTED_MODELS

/-- The construction error message for a missing credential. -/
def api_key_required_msg : String :=
  "OpenAI API key required. Provide it via openai_api_key parameter "
    ++ "or set OPENAI_API_KEY environment variable."

/-- `Client.__init__`: validate the model against `SUPPORTED_MODELS`,
resolve the key as `openai_api_key or os.getenv("OPENAI_API_KEY")` (the
environment value is passed explicitly as `env_key`), and fail with
`ValidationError` if the resolved key is falsy. -/
def Client.init (openai_api_key : Option String) (model : String)
    (env_key : Option String) : Except TError Client :=
  if !(SUPPORTED_MODELS.contains model) then
    .error (.validationError (unsupported_model_msg model))
  else
    let api_key := pyOrOpt openai_api_key env_key
    if !(pyTruthyOpt api_key) then
      .error (.validationError api_key_required_msg)
    else
      .ok { model := model, api_key := api_key.getD "" }

/-- A credential is available when the explicit argument or the
environment value is present and nonempty. -/
def credentialAvailable (key env : Option String) : Bool :=
  pyTruthyOpt key || pyTruthyOpt env

/-- The full instruction (`base_prompt` in `_get_system_prompt`). -/
def base_prompt : String :=
  "You convert plain text into a concise, descriptive, human-readable title for "
  ++ "frontend display.\n"
  ++ "Rules:\n"
  ++ "• Output in the same language as the input.\n"
  ++ "• Be concise: aim for 4–9 words or ≤60 characters. Prefer clarity over creativity.\n"
  ++ "• Preserve key proper nouns and terms; do not invent information.\n"
  ++ "• Remove filler words, boilerplate, IDs, and dates unless essential.\n"
  ++ "• Casing: Title Case for Latin scripts; keep natural casing for non-Latin scripts "
  ++ "(e.g., Japanese).\n"
  ++ "• Punctuation: no quotes/brackets/emojis/hashtags; no trailing period. Use colon "
  ++ "or dash only if it clearly improves clarity.\n"
  ++ "• If the input is already a good title, normalize casing/spacing and return it.\n"
  ++ "• If input is empty or meaningless, return: Untitled\n"
  ++ "Return only the title text—no explanations."

/-- The simplified instruction returned for `gpt-3.5-turbo`. -/
def simplified_prompt : String :=
  "Convert text to a concise title (4-9 words, ≤60 chars). "
  ++ "Same language as input. Title Case for Latin scripts. "
  ++ "No quotes/brackets/emojis. Return only the title."

/-- `Client._get_system_prompt`: the simplified instruction for the models
in `["gpt-3.5-turbo"]`, the full instruction otherwise. -/
def Client.get_system_prompt (c : Client) : String :=
  if c.model ∈ ["gpt-3.5-turbo"] then simplified_prompt else base_prompt

/-- The double-quote character. -/
def dquote : Char := Char.ofNat 34

/-- The single-quote character. -/
def squote : Char := Char.ofNat 39

/-- The post-processing both helpers apply to a nonempty payload:
strip whitespace, then every leading/trailing double quote, then every
leading/trailing single quote. -/
def cleanTitle (t : String) : String :=
  pyStripChar squote (pyStripChar dquote (pyStrip t))

/-- Claim C4's reading of the post-processing, stated from the spec's words
rather than from the code: the title is the payload trimmed of surrounding
whitespace and of a SINGLE layer of surrounding quote characters (at most
one leading and one trailing single- or double-quote). -/
def isQuoteChar (c : Char) : Bool := c = dquote || c = squote

/-- Remove at most one leading and one trailing quote character. -/
def stripOneQuoteLayer (l : List Char) : List Char :=
  let l1 := match l with
    | [] => ([] : List Char)
    | c :: rest => if isQuoteChar c then rest else c :: rest
  match l1.reverse with
  | [] => l1
  | c :: _ => if isQuoteChar c then l1.reverse.tail.reverse else l1

/-- The spec-worded post-processing: whitespace trim, then one quote layer. -/
def specCleanTitle (s : String) : String := ⟨stripOneQuoteLayer (pyStrip s).data⟩

/-- `Client._generate_title_responses_api`: build the combined prompt,
issue the single-prompt call, fail on an empty payload, clean the title.
Returns the result (or propagating exception) together with the issued
call. -/
def Client.generate_title_responses_api (c : Client)
    (upstream : APICall → UpstreamOutcome) (text : String) :
    Except Exn String × APICall :=
  let prompt := c.get_system_prompt ++ "\n\nText to convert to title: " ++ text
  let call := APICall.responsesCreate c.model prompt "minimal" "low" 30
  match upstream call with
  | .err f => (.error (.upstream f), call)
  | .ok payload =>
    let title : Option String :=
      match payload with
      | some s => if pyTruthy s then some s else none
      | none => none
    match title with
    | none =>
      (.error (.raised (.apiError ("Model '" ++ c.model ++ "' returned empty response."))), call)
    | some t => (.ok (cleanTitle t), call)

/-- `Client._generate_title_chat_api`: issue the two-message call, fail on
an absent or empty payload, clean the title.  Returns the result together
with the issued call. -/
def Client.generate_title_chat_api (c : Client)
    (upstream : APICall → UpstreamOutcome) (text : String) :
    Except Exn String × APICall :=
  let system_prompt := c.get_system_prompt
  let call := APICall.chatCreate c.model
    [{ role := "system", content := system_prompt }, { role := "user", content := text }]
    50 (3 / 10) 30
  match upstream call with
  | .err f => (.error (.upstream f), call)
  | .ok content =>
    match content with
    | none => (.error (.raised (.apiError "OpenAI API returned empty response.")), call)
    | some t =>
      if pyTruthy t then (.ok (cleanTitle t), call)
      else (.error (.raised (.apiError "OpenAI API returned empty response.")), call)

/-- The `except Exception as e` block of `generate_title`: map a caught
exception to the `APIError` it raises. -/
def mapException (e : Exn) : TError :=
  match e.statusCode with
  | some sc =>
    if sc = 429 then .apiError "Rate limit exceeded. Please try again later."
    else if sc = 401 then .apiError "Invalid API key."
    else if sc ≥ 500 then .apiError "OpenAI API server error. Please try again later."
    else .apiError ("Failed to generate title: " ++ e.str)
  | none => .apiError ("Failed to generate title: " ++ e.str)

/-- The model-class dispatch inside the `try` block. -/
def dispatch (c : Client) (upstream : APICall → UpstreamOutcome) (text : String) :
    Except Exn String × APICall :=
  if c.model ∈ GPT5_MODELS then c.generate_title_responses_api upstream text
  else c.generate_title_chat_api upstream text

/-- What one `generate_title` run produced: the returned title or raised
error, the upstream calls issued, and the client state afterwards. -/
structure GenOutcome where
  result : Except TError String
  calls : List APICall
  selfAfter : Client
deriving Repr

/-- `Client.generate_title`: validate the input (nonempty after stripping,
at most 8000 characters), dispatch on the model class, and translate any
exception through the failure mapping. -/
def Client.generate_title (c : Client) (upstream : APICall → UpstreamOutcome)
    (text : String) : GenOutcome :=
  if !pyTruthy text || !pyTruthy (pyStrip text) then
    { result := .error (.validationError "Input text cannot be empty.")
      calls := [], selfAfter := c }
  else if (pyStrip text).length > 8000 then
    { result := .error (.validationError "Input text too long (max 8000 characters).")
      calls := [], selfAfter := c }
  else
    match dispatch c upstream (pyStrip text) with
    | (.ok t, call) => { result := .ok t, calls := [call], selfAfter := c }
    | (.error e, call) =>
      { result := .error (mapException e), calls := [call], selfAfter := c }

/-! ### Supporting lemmas -/

theorem contains_iff (l : List String) (s : String) : l.contains s = true ↔ s ∈ l := by
  simp

theorem not_pyTruthy_iff (s : String) : (!pyTruthy s) = true ↔ s = "" := by
  simp only [pyTruthy, Bool.not_not, List.isEmpty_iff]
  exact ⟨fun h => String.ext h, fun h => by rw [h]⟩

theorem pyTruthy_iff (s : String) : pyTruthy s = true ↔ s ≠ "" := by
  have h : pyTruthy s = false ↔ s = "" := by
    rw [← Bool.not_eq_true', not_pyTruthy_iff]
  constructor
  · intro ht he
    rw [h.mpr he] at ht
    exact Bool.false_ne_true ht
  · intro hne
    cases hb : pyTruthy s
    · exact absurd (h.mp hb) hne
    · rfl

theorem validation_cond (text : String) :
    (!pyTruthy text || !pyTruthy (pyStrip text)) = true ↔ pyStrip text = "" := by
  rw [Bool.or_eq_true, not_pyTruthy_iff, not_pyTruthy_iff]
  constructor
  · rintro (h | h)
    · rw [h]; rfl
    · exact h
  · exact Or.inr

theorem mapException_apiError (e : Exn) : ∃ m, mapException e = .apiError m := by
  unfold mapException
  cases e.statusCode with
  | none => exact ⟨_, rfl⟩
  | some sc =>
    dsimp only
    repeat' split
    all_goals exact ⟨_, rfl⟩

theorem generate_title_valid (c : Client) (upstream : APICall → UpstreamOutcome)
    (text : String) (hne : pyStrip text ≠ "") (hlen : (pyStrip text).length ≤ 8000) :
    c.generate_title upstream text =
      (match dispatch c upstream (pyStrip text) with
       | (.ok t, call) => { result := .ok t, calls := [call], selfAfter := c }
       | (.error e, call) =>
         { result := .error (mapException e), calls := [call], selfAfter := c }) := by
  have h1 : (!pyTruthy text || !pyTruthy (pyStrip text)) = false := by
    rw [Bool.eq_false_iff]
    exact fun hc => hne ((validation_cond text).mp hc)
  unfold Client.generate_title
  rw [h1]
  simp only [Bool.false_eq_true, if_false]
  rw [if_neg (by omega)]

theorem dispatch_snd_A (c : Client) (upstream : APICall → UpstreamOutcome) (t : String)
    (h : c.model ∈ GPT5_MODELS) :
    (dispatch c upstream t).2 =
      .responsesCreate c.model (c.get_system_prompt ++ "\n\nText to convert to title: " ++ t)
        "minimal" "low" 30 := by
  unfold dispatch
  rw [if_pos h]
  unfold Client.generate_title_responses_api
  dsimp only
  repeat' split
  all_goals rfl

theorem dispatch_snd_B (c : Client) (upstream : APICall → UpstreamOutcome) (t : String)
    (h : c.model ∉ GPT5_MODELS) :
    (dispatch c upstream t).2 =
      .chatCreate c.model
        [{ role := "system", content := c.get_system_prompt },
         { role := "user", content := t }] 50 (3 / 10) 30 := by
  unfold dispatch
  rw [if_neg h]
  unfold Client.generate_title_chat_api
  dsimp only
  repeat' split
  all_goals rfl

theorem dispatch_err (c : Client) (f : UpstreamFailure) (t : String) :
    (dispatch c (fun _ => .err f) t).1 = .error (.upstream f) := by
  unfold dispatch Client.generate_title_responses_api Client.generate_title_chat_api
  dsimp only
  split <;> rfl

theorem dispatch_ok_some (c : Client) (p : String) (t : String) (hp : p ≠ "") :
    (dispatch c (fun _ => .ok (some p)) t).1 = .ok (cleanTitle p) := by
  have hpt : pyTruthy p = true := (pyTruthy_iff p).mpr hp
  unfold dispatch Client.generate_title_responses_api Client.generate_title_chat_api
  dsimp only
  rw [hpt]
  split <;> rfl

theorem dispatch_ok_empty_A (c : Client) (payload : Option String) (t : String)
    (hA : c.model ∈ GPT5_MODELS) (hp : payload = none ∨ payload = some "") :
    (dispatch c (fun _ => .ok payload) t).1 =
      .error (.raised (.apiError ("Model '" ++ c.model ++ "' returned empty response."))) := by
  unfold dispatch
  rw [if_pos hA]
  unfold Client.generate_title_responses_api
  rcases hp with h | h <;> subst h <;> rfl

theorem dispatch_ok_empty_B (c : Client) (payload : Option String) (t : String)
    (hB : c.model ∉ GPT5_MODELS) (hp : payload = none ∨ payload = some "") :
    (dispatch c (fun _ => .ok payload) t).1 =
      .error (.raised (.apiError "OpenAI API returned empty response.")) := by
  unfold dispatch
  rw [if_neg hB]
  unfold Client.generate_title_chat_api
  rcases hp with h | h <;> subst h <;> rfl

theorem credentialAvailable_eq (key env : Option String) :
    pyTruthyOpt (pyOrOpt key env) = credentialAvailable key env := by
  cases key with
  | none => simp [credentialAvailable, pyOrOpt, pyTruthyOpt]
  | some s =>
    cases h : pyTruthy s <;>
      simp [credentialAvailable, pyOrOpt, pyTruthyOpt, h]

/-! ### Claim theorems -/

/-- Claim C1: for every client and validated input, an upstream failure is
mapped by its status signal: 429 yields the rate-limit APIError, 401 the
invalid-credential APIError, any status at least 500 the server-error
APIError, and any other failure (no status, or a status such as 404 that
matches none of the three classes) yields the generic APIError wrapping the
failure's message. -/
theorem C1_failure_mapping (c : Client) (text : String) (f : UpstreamFailure)
    (hne : pyStrip text ≠ "") (hlen : (pyStrip text).length ≤ 8000) :
    (f.status_code = some 429 →
        (c.generate_title (fun _ => .err f) text).result =
          .error (.apiError "Rate limit exceeded. Please try again later."))
    ∧ (f.status_code = some 401 →
        (c.generate_title (fun _ => .err f) text).result =
          .error (.apiError "Invalid API key."))
    ∧ (∀ sc : Int, f.status_code = some sc → 500 ≤ sc →
        (c.generate_title (fun _ => .err f) text).result =
          .error (.apiError "OpenAI API server error. Please try again later."))
    ∧ (f.status_code = none →
        (c.generate_title (fun _ => .err f) text).result =
          .error (.apiError ("Failed to generate title: " ++ f.msg)))
    ∧ (∀ sc : Int, f.status_code = some sc → sc ≠ 429 → sc ≠ 401 → sc < 500 →
        (c.generate_title (fun _ => .err f) text).result =
          .error (.apiError ("Failed to generate title: " ++ f.msg))) := by
  have hres : (c.generate_title (fun _ => .err f) text).result =
      .error (mapException (.upstream f)) := by
    rw [generate_title_valid c _ text hne hlen]
    have h2 := dispatch_err c f (pyStrip text)
    rcases hd : dispatch c (fun _ => .err f) (pyStrip text) with ⟨r, call⟩
    rw [hd] at h2
    dsimp only at h2
    rw [h2]
  refine ⟨?_, ?_, ?_, ?_, ?_⟩
  · intro h
    rw [hres]
    unfold mapException
    dsimp only [Exn.statusCode]
    rw [h]
    dsimp only
    rw [if_pos rfl]
  · intro h
    rw [hres]
    unfold mapException
    dsimp only [Exn.statusCode]
    rw [h]
    dsimp only
    rw [if_neg (by omega), if_pos rfl]
  · intro sc h hge
    rw [hres]
    unfold mapException
    dsimp only [Exn.statusCode]
    rw [h]
    dsimp only
    rw [if_neg (by omega), if_neg (by omega), if_pos (by omega)]
  · intro h
    rw [hres]
    unfold mapException
    dsimp only [Exn.statusCode]
    rw [h]
    dsimp only [Exn.str]
  · intro sc h h429 h401 hlt
    rw [hres]
    unfold mapException
    dsimp only [Exn.statusCode]
    rw [h]
    dsimp only
    rw [if_neg (by omega), if_neg (by omega), if_neg (by omega)]
    dsimp only [Exn.str]

/-- Claim C1 witness at a concrete client, text and failure. -/
theorem C1_failure_mapping_witness :
    ((Client.mk "gpt-4o" "key").generate_title
        (fun _ => .err ⟨some 429, "boom"⟩) "hello").result =
      .error (.apiError "Rate limit exceeded. Please try again later.") :=
  (C1_failure_mapping ⟨"gpt-4o", "key"⟩ "hello" ⟨some 429, "boom"⟩
    (by decide) (by decide)).1 rfl

/-- Claim C2: with validated input, a class-A (GPT-5 family) client issues
exactly the single-prompt call (instruction and text combined, minimal
effort, low verbosity, timeout 30), and any other client issues exactly the
two-message call (system instruction plus the trimmed text as user
content, 50-token cap, temperature 0.3, timeout 30). -/
theorem C2_call_shapes (c : Client) (upstream : APICall → UpstreamOutcome) (text : String)
    (hne : pyStrip text ≠ "") (hlen : (pyStrip text).length ≤ 8000) :
    (c.model ∈ GPT5_MODELS →
      (c.generate_title upstream text).calls =
        [APICall.responsesCreate c.model
          (c.get_system_prompt ++ "\n\nText to convert to title: " ++ pyStrip text)
          "minimal" "low" 30])
    ∧ (c.model ∉ GPT5_MODELS →
      (c.generate_title upstream text).calls =
        [APICall.chatCreate c.model
          [{ role := "system", content := c.get_system_prompt },
           { role := "user", content := pyStrip text }] 50 (3 / 10) 30]) := by
  have hcalls : (c.generate_title upstream text).calls =
      [(dispatch c upstream (pyStrip text)).2] := by
    rw [generate_title_valid c upstream text hne hlen]
    rcases hd : dispatch c upstream (pyStrip text) with ⟨r, call⟩
    cases r <;> rfl
  constructor
  · intro h
    rw [hcalls, dispatch_snd_A c upstream _ h]
  · intro h
    rw [hcalls, dispatch_snd_B c upstream _ h]

/-- Claim C2 witness at a concrete class-A client. -/
theorem C2_call_shapes_witness :
    ((Client.mk "gpt-5" "key").generate_title (fun _ => .ok (some "T")) "hello").calls =
      [APICall.responsesCreate "gpt-5"
        ((Client.mk "gpt-5" "key").get_system_prompt
          ++ "\n\nText to convert to title: " ++ pyStrip "hello")
        "minimal" "low" 30] :=
  (C2_call_shapes ⟨"gpt-5", "key"⟩ (fun _ => .ok (some "T")) "hello"
    (by decide) (by decide)).1 (by decide)

/-- Claim C3: generate_title fails with a ValidationError exactly when the
whitespace-trimmed text is empty or longer than 8000 characters; trimmed
length 8000 passes validation, 8001 fails. -/
theorem C3_input_validation (c : Client) (upstream : APICall → UpstreamOutcome)
    (text : String) :
    (∃ m, (c.generate_title upstream text).result = .error (.validationError m)) ↔
      pyStrip text = "" ∨ 8000 < (pyStrip text).length := by
  by_cases h1 : pyStrip text = ""
  · constructor
    · intro _
      exact Or.inl h1
    · intro _
      refine ⟨"Input text cannot be empty.", ?_⟩
      unfold Client.generate_title
      rw [(validation_cond text).mpr h1]
      rfl
  · have hc : (!pyTruthy text || !pyTruthy (pyStrip text)) = false := by
      rw [Bool.eq_false_iff]
      exact fun h => h1 ((validation_cond text).mp h)
    by_cases h2 : 8000 < (pyStrip text).length
    · refine ⟨fun _ => Or.inr h2, fun _ => ⟨"Input text too long (max 8000 characters).", ?_⟩⟩
      unfold Client.generate_title
      rw [hc]
      simp only [Bool.false_eq_true, if_false]
      rw [if_pos h2]
    · constructor
      · rintro ⟨m, hm⟩
        rw [generate_title_valid c upstream text h1 (by omega)] at hm
        rcases hd : dispatch c upstream (pyStrip text) with ⟨r, call⟩
        rw [hd] at hm
        cases r with
        | ok t => simp at hm
        | error e =>
          dsimp only at hm
          obtain ⟨m', hm'⟩ := mapException_apiError e
          rw [hm'] at hm
          simp at hm
      · rintro (h | h)
        · exact absurd h h1
        · exact absurd h h2

/-- Claim C9: the client configuration is unchanged by generate_title: the
post-call client state, its model and its stored key equal the pre-call
values, whether the call returned a title or an error. -/
theorem C9_config_frame (c : Client) (upstream : APICall → UpstreamOutcome)
    (text : String) :
    (c.generate_title upstream text).selfAfter = c
    ∧ (c.generate_title upstream text).selfAfter.model = c.model
    ∧ (c.generate_title upstream text).selfAfter.api_key = c.api_key := by
  have h : (c.generate_title upstream text).selfAfter = c := by
    unfold Client.generate_title
    split
    · rfl
    · split
      · rfl
      · split <;> rfl
  exact ⟨h, by rw [h], by rw [h]⟩

/-- Claim C4 counterexample: the code strips EVERY surrounding quote
character of each kind, not a single layer.  For the upstream payload
consisting of Quoted inside two layers of double quotes the code returns
the bare word, while the claim's single-layer reading keeps one quote
layer. -/
theorem C4_counterexample :
    ((Client.mk "gpt-4o" "key").generate_title
        (fun _ => .ok (some "\"\"Quoted\"\"")) "hello").result = .ok "Quoted"
    ∧ specCleanTitle "\"\"Quoted\"\"" = "\"Quoted\""
    ∧ ("Quoted" : String) ≠ "\"Quoted\"" := by
  refine ⟨rfl, rfl, by decide⟩

/-- Claim C4 (amended): for every nonempty upstream text payload the
returned title equals the payload trimmed of surrounding whitespace, then
of ALL leading and trailing double-quote characters, then of all leading
and trailing single-quote characters; the claim's two examples hold. -/
theorem C4_title_cleaning (c : Client) (text payload : String)
    (hne : pyStrip text ≠ "") (hlen : (pyStrip text).length ≤ 8000)
    (hp : payload ≠ "") :
    (c.generate_title (fun _ => .ok (some payload)) text).result = .ok (cleanTitle payload)
    ∧ cleanTitle payload = pyStripChar squote (pyStripChar dquote (pyStrip payload))
    ∧ cleanTitle "Test Title" = "Test Title"
    ∧ cleanTitle "\"Quoted Title\"" = "Quoted Title" := by
  refine ⟨?_, rfl, rfl, rfl⟩
  rw [generate_title_valid c _ text hne hlen]
  have h1 := dispatch_ok_some c payload (pyStrip text) hp
  rcases hd : dispatch c (fun _ => .ok (some payload)) (pyStrip text) with ⟨r, call⟩
  rw [hd] at h1
  dsimp only at h1
  rw [h1]

/-- Claim C4 witness at a concrete client and payload. -/
theorem C4_title_cleaning_witness :
    ((Client.mk "gpt-4o" "key").generate_title
        (fun _ => .ok (some " \"Quoted Title\" ")) "hello").result = .ok "Quoted Title" :=
  (C4_title_cleaning ⟨"gpt-4o", "key"⟩ "hello" " \"Quoted Title\" "
    (by decide) (by decide) (by decide)).1

theorem wrapA_decomp (mdl : String) :
    "Failed to generate title: " ++ ("Model '" ++ mdl ++ "' returned empty response.")
      = ("Failed to generate title: Model '" ++ mdl ++ "' returned ")
        ++ "empty response" ++ "." := by
  apply String.ext
  simp [String.data_append]

/-- Claim C5: when the upstream call succeeds with an empty or absent
payload, generate_title raises an APIError whose message mentions an empty
response (the helper's empty-response APIError, re-wrapped by the generic
failure branch), and never returns a title to the caller. -/
theorem C5_empty_payload (c : Client) (text : String) (payload : Option String)
    (hne : pyStrip text ≠ "") (hlen : (pyStrip text).length ≤ 8000)
    (hp : payload = none ∨ payload = some "") :
    (∃ m pre post,
        (c.generate_title (fun _ => .ok payload) text).result = .error (.apiError m)
        ∧ m = pre ++ "empty response" ++ post)
    ∧ ∀ t, (c.generate_title (fun _ => .ok payload) text).result ≠ .ok t := by
  by_cases hA : c.model ∈ GPT5_MODELS
  · have hm : (c.generate_title (fun _ => .ok payload) text).result =
        .error (.apiError ("Failed to generate title: "
          ++ ("Model '" ++ c.model ++ "' returned empty response."))) := by
      rw [generate_title_valid c _ text hne hlen]
      have h1 := dispatch_ok_empty_A c payload (pyStrip text) hA hp
      rcases hd : dispatch c (fun _ => .ok payload) (pyStrip text) with ⟨r, call⟩
      rw [hd] at h1
      dsimp only at h1
      rw [h1]
      rfl
    constructor
    · exact ⟨_, _, _, hm, wrapA_decomp c.model⟩
    · intro t h
      rw [hm] at h
      exact Except.noConfusion h
  · have hm : (c.generate_title (fun _ => .ok payload) text).result =
        .error (.apiError ("Failed to generate title: "
          ++ "OpenAI API returned empty response.")) := by
      rw [generate_title_valid c _ text hne hlen]
      have h1 := dispatch_ok_empty_B c payload (pyStrip text) hA hp
      rcases hd : dispatch c (fun _ => .ok payload) (pyStrip text) with ⟨r, call⟩
      rw [hd] at h1
      dsimp only at h1
      rw [h1]
      rfl
    constructor
    · exact ⟨_, "Failed to generate title: OpenAI API returned ", ".", hm, by decide⟩
    · intro t h
      rw [hm] at h
      exact Except.noConfusion h

/-- Claim C5 witness at a concrete client with an absent payload. -/
theorem C5_empty_payload_witness :
    (∃ m pre post,
        ((Client.mk "gpt-4o" "key").generate_title (fun _ => .ok none) "hello").result =
          .error (.apiError m)
        ∧ m = pre ++ "empty response" ++ post)
    ∧ ∀ t, ((Client.mk "gpt-4o" "key").generate_title
        (fun _ => .ok none) "hello").result ≠ .ok t :=
  C5_empty_payload ⟨"gpt-4o", "key"⟩ "hello" none (by decide) (by decide) (Or.inl rfl)

/-- Claim C6: the prompt builder is a function of the model identifier
alone, returning exactly one of two fixed instruction strings; the
simplified instruction is returned among supported models only for
gpt-3.5-turbo; model classes A and B are disjoint and together exhaust the
supported set. -/
theorem C6_prompt_builder :
    (∀ c₁ c₂ : Client, c₁.model = c₂.model → c₁.get_system_prompt = c₂.get_system_prompt)
    ∧ (∀ c : Client, c.get_system_prompt =
        if c.model = "gpt-3.5-turbo" then simplified_prompt else base_prompt)
    ∧ simplified_prompt ≠ base_prompt
    ∧ (∀ m : String, m ∈ SUPPORTED_MODELS ↔ (m ∈ GPT5_MODELS ∨ m ∈ CLASS_B_MODELS))
    ∧ (∀ m : String, ¬(m ∈ GPT5_MODELS ∧ m ∈ CLASS_B_MODELS))
    ∧ (∀ c : Client, c.model ∈ SUPPORTED_MODELS →
        (c.get_system_prompt = simplified_prompt ↔ c.model = "gpt-3.5-turbo")) := by
  have hne : simplified_prompt ≠ base_prompt := by decide
  have hfun : ∀ c : Client, c.get_system_prompt =
      if c.model = "gpt-3.5-turbo" then simplified_prompt else base_prompt := by
    intro c
    unfold Client.get_system_prompt
    simp only [List.mem_singleton]
  refine ⟨?_, hfun, hne, ?_, ?_, ?_⟩
  · intro c₁ c₂ h
    rw [hfun c₁, hfun c₂, h]
  · intro m
    simp only [SUPPORTED_MODELS, GPT5_MODELS, CLASS_B_MODELS, List.mem_cons,
      List.mem_singleton, List.not_mem_nil, or_false]
    tauto
  · intro m ⟨h1, h2⟩
    simp only [GPT5_MODELS, CLASS_B_MODELS, List.mem_cons, List.mem_singleton,
      List.not_mem_nil, or_false] at h1 h2
    rcases h1 with rfl | rfl | rfl <;> simp at h2
  · intro c _
    rw [hfun c]
    by_cases h : c.model = "gpt-3.5-turbo"
    · rw [if_pos h]
      simp [h]
    · rw [if_neg h]
      constructor
      · intro hb
        exact absurd hb.symm hne
      · intro hc
        exact absurd hc h

/-- Claim C6 witness: the simplified instruction is returned exactly for
gpt-3.5-turbo. -/
theorem C6_prompt_builder_witness :
    (Client.mk "gpt-3.5-turbo" "key").get_system_prompt = simplified_prompt ↔
      (Client.mk "gpt-3.5-turbo" "key").model = "gpt-3.5-turbo" :=
  C6_prompt_builder.2.2.2.2.2 ⟨"gpt-3.5-turbo", "key"⟩ (by decide)

/-- Claim C7: construction with an unsupported model identifier fails with
a ValidationError; with a supported identifier and an available credential
it succeeds. -/
theorem C7_model_validation (key env : Option String) (model : String) :
    (model ∉ SUPPORTED_MODELS →
        ∃ m, Client.init key model env = .error (.validationError m))
    ∧ (model ∈ SUPPORTED_MODELS → credentialAvailable key env = true →
        ∃ c, Client.init key model env = .ok c) := by
  constructor
  · intro h
    have hc : SUPPORTED_MODELS.contains model = false := by
      rw [Bool.eq_false_iff]
      exact fun hc => h ((contains_iff _ _).mp hc)
    refine ⟨unsupported_model_msg model, ?_⟩
    unfold Client.init
    rw [hc]
    rfl
  · intro hm hk
    have hc : SUPPORTED_MODELS.contains model = true := (contains_iff _ _).mpr hm
    have hk2 : pyTruthyOpt (pyOrOpt key env) = true := by
      rw [credentialAvailable_eq]
      exact hk
    refine ⟨⟨model, (pyOrOpt key env).getD ""⟩, ?_⟩
    unfold Client.init
    rw [hc]
    simp only [Bool.not_true, Bool.false_eq_true, if_false]
    rw [hk2]
    rfl

/-- Claim C7 witness: an unsupported identifier is rejected, a supported
one accepted. -/
theorem C7_model_validation_witness :
    ∃ m, Client.init (some "key") "not-a-model" none = .error (.validationError m) :=
  (C7_model_validation (some "key") none "not-a-model").1 (by decide)

/-- Claim C8: for a supported model, construction fails with a
ValidationError exactly when no credential is available from the explicit
argument or the environment fallback; otherwise it succeeds with the
resolved key. -/
theorem C8_credential_requirement (model : String) (key env : Option String)
    (hm : model ∈ SUPPORTED_MODELS) :
    ((∃ m, Client.init key model env = .error (.validationError m)) ↔
        credentialAvailable key env = false)
    ∧ (credentialAvailable key env = true →
        Client.init key model env = .ok ⟨model, (pyOrOpt key env).getD ""⟩) := by
  have hc : SUPPORTED_MODELS.contains model = true := (contains_iff _ _).mpr hm
  cases hav : credentialAvailable key env
  · have hk : pyTruthyOpt (pyOrOpt key env) = false := by
      rw [credentialAvailable_eq]
      exact hav
    constructor
    · refine ⟨fun _ => rfl, fun _ => ⟨api_key_required_msg, ?_⟩⟩
      unfold Client.init
      rw [hc]
      simp only [Bool.not_true, Bool.false_eq_true, if_false]
      rw [hk]
      rfl
    · intro h
      exact absurd h (by simp)
  · have hk : pyTruthyOpt (pyOrOpt key env) = true := by
      rw [credentialAvailable_eq]
      exact hav
    have hok : Client.init key model env = .ok ⟨model, (pyOrOpt key env).getD ""⟩ := by
      unfold Client.init
      rw [hc]
      simp only [Bool.not_true, Bool.false_eq_true, if_false]
      rw [hk]
      rfl
    constructor
    · constructor
      · rintro ⟨m, hmm⟩
        rw [hok] at hmm
        exact Except.noConfusion hmm
      · intro h
        exact absurd h (by simp)
    · intro _
      exact hok

/-- Claim C8 witness: a supported model with an explicit credential
constructs successfully. -/
theorem C8_credential_requirement_witness :
    Client.init (some "k") "gpt-4o" none = .ok ⟨"gpt-4o", (pyOrOpt (some "k") none).getD ""⟩ :=
  (C8_credential_requirement "gpt-4o" (some "k") none (by decide)).2 (by decide)

/-- Claim C10: an explicit empty-string credential is treated like an
absent one: construction falls back to the environment value, succeeding
when it is nonempty and failing with a ValidationError when it is unset or
empty. -/
theorem C10_empty_key_fallback (model : String) (env : Option String)
    (hm : model ∈ SUPPORTED_MODELS) :
    Client.init (some "") model env = Client.init none model env
    ∧ (∀ s : String, env = some s → s ≠ "" →
        Client.init (some "") model env = .ok ⟨model, s⟩)
    ∧ (env = none ∨ env = some "" →
        ∃ m, Client.init (some "") model env = .error (.validationError m)) := by
  have hc : SUPPORTED_MODELS.contains model = true := (contains_iff _ _).mpr hm
  refine ⟨rfl, ?_, ?_⟩
  · intro s hs hne
    subst hs
    have hk : pyTruthyOpt (pyOrOpt (some "") (some s)) = true := by
      simp only [pyOrOpt, pyTruthyOpt]
      rw [if_neg (by simp [pyTruthy])]
      exact (pyTruthy_iff s).mpr hne
    unfold Client.init
    rw [hc]
    simp only [Bool.not_true, Bool.false_eq_true, if_false]
    rw [hk]
    rfl
  · rintro (h | h) <;> subst h
    · refine ⟨api_key_required_msg, ?_⟩
      unfold Client.init
      rw [hc]
      rfl
    · refine ⟨api_key_required_msg, ?_⟩
      unfold Client.init
      rw [hc]
      rfl

/-- Claim C10 witness: an empty explicit key falls back to a nonempty
environment key. -/
theorem C10_empty_key_fallback_witness :
    Client.init (some "") "gpt-4o" (some "env-key") = .ok ⟨"gpt-4o", "env-key"⟩ :=
  (C10_empty_key_fallback "gpt-4o" (some "env-key") (by decide)).2.1 "env-key" rfl (by decide)

end TitleCraft
